import Mathlib

/-!
Verification of the bulk remote-file-inventory cache implemented in
`src/analysis/google_batch/gcs_job_scheduler_patch.py`.

The Python module performs one bulk `list_blobs` call over a GCS bucket,
builds an in-memory dictionary from path strings to per-file metadata,
and serves `exists`/`size` queries from that dictionary, falling back to
the original per-object remote check on a miss.  This file is a shallow
embedding of that module: Python dictionaries become functions
`String → Option FileInfo`, the mutable module-level globals
(`_bulk_cache`, `_cache_stats`, `_inventory_done`) become an explicit
state record threaded through the operations, and exceptions become
`Except` values.  Wall-clock durations are modelled as natural numbers;
only the update discipline of the timing counter matters here, never
its arithmetic.
-/

/-- An error raised by the backing store's listing call
(authentication, network, quota).  The Python code catches every
`Exception`; only its message is relevant to the model. -/
structure ListingError where
  msg : String
deriving DecidableEq

/-- One object returned by `bucket.list_blobs(...)`: its name, its size
in bytes, and its optional last-update timestamp (`blob.updated`).
The timestamp is modelled as a natural number; the source converts it
with `.timestamp()`, which the model treats as the identity. -/
structure Blob where
  name : String
  size : Nat
  updated : Option Nat
deriving DecidableEq

/-- The per-file dictionary value built at lines 76-80 of the source:
`{'exists': True, 'size': blob.size, 'mtime': ...}`.  The source key
`exists` is a Lean keyword, hence the field name `exists_flag`. -/
structure FileInfo where
  exists_flag : Bool
  size : Nat
  mtime : Option Nat
deriving DecidableEq

/-- The `_bulk_cache` dictionary: path string to file metadata.
A Python dict is modelled as a function with `none` for absent keys;
insertion overrides pointwise. -/
def Cache : Type := String → Option FileInfo

/-- `cache[k] = v`: Python dict assignment (later writes win). -/
def dictInsert (m : Cache) (k : String) (v : FileInfo) : Cache :=
  fun x => if x = k then some v else m x

/-- The initial `_bulk_cache = {}` (and the local `cache = {}` at the
start of `bulk_inventory_gcs`). -/
def emptyCache : Cache := fun _ => none

/-- The `_cache_stats` dictionary of the source (lines 42-48). -/
structure Stats where
  inventory_calls : Nat
  files_cached : Nat
  cache_hits : Nat
  cache_misses : Nat
  inventory_time : Nat
deriving DecidableEq

/-- The initial `_cache_stats` values (all zero). -/
def stats0 : Stats := ⟨0, 0, 0, 0, 0⟩

/-- Line 83 of the source: `f"gs://{GCS_BUCKET}/{blob.name}"`.
The bucket name is passed explicitly instead of being read from a
module-level global. -/
def gcs_uri (bucket name : String) : String :=
  "gs://" ++ bucket ++ "/" ++ name

/-- Line 84 of the source:
`f".snakemake/storage/gcs/{GCS_BUCKET}/{blob.name}"`. -/
def snakemake_path (bucket name : String) : String :=
  ".snakemake/storage/gcs/" ++ bucket ++ "/" ++ name

/-- Line 85 of the source:
`f"/mnt/data/blainey/qinling-analysis/gcs/{GCS_BUCKET}/{blob.name}"`. -/
def local_path (bucket name : String) : String :=
  "/mnt/data/blainey/qinling-analysis/gcs/" ++ bucket ++ "/" ++ name

/-- The record stored for a listed blob (lines 76-80): existence is
always recorded as `True`. -/
def blobInfo (b : Blob) : FileInfo :=
  { exists_flag := true, size := b.size, mtime := b.updated }

/-- Lines 83-89 of the source: store one blob's record under the three
path formats, in source order (GCS URI, then snakemake-internal path,
then locally-mounted path). -/
def register_blob (bucket : String) (c : Cache) (b : Blob) : Cache :=
  dictInsert
    (dictInsert
      (dictInsert c (gcs_uri bucket b.name) (blobInfo b))
      (snakemake_path bucket b.name) (blobInfo b))
    (local_path bucket b.name) (blobInfo b)

/-- The loop of lines 75-91: iterate the listing once, registering each
blob, starting from the empty dictionary. -/
def bulk_list_to_cache (bucket : String) (blobs : List Blob) : Cache :=
  blobs.foldl (register_blob bucket) emptyCache

/-- `bulk_inventory_gcs` (lines 58-114), with the outcome of the
listing call passed in as an `Except` value and the measured wall-clock
duration passed in as `elapsed`.  On success the statistics are updated
as at lines 99-101 (`inventory_calls += 1`, `files_cached = count`,
`inventory_time = elapsed`) and the populated dictionary is returned;
on failure the exception is caught and the empty dictionary is returned
with the statistics untouched (lines 109-114). -/
def bulk_inventory_gcs (listing : Except ListingError (List Blob))
    (bucket : String) (elapsed : Nat) (st : Stats) : Cache × Stats :=
  match listing with
  | Except.ok blobs =>
      (bulk_list_to_cache bucket blobs,
       { st with
          inventory_calls := st.inventory_calls + 1,
          files_cached := blobs.length,
          inventory_time := elapsed })
  | Except.error _ => (emptyCache, st)

/-! ### Key-format lemmas

The three path formats registered for one blob never collide with each
other (they start with distinct characters), and within a single
format the key determines the blob name. -/

theorem head_gcs_uri (b n : String) :
    (gcs_uri b n).data.head? = some 'g' := by
  rw [gcs_uri, String.data_append, String.data_append, String.data_append]
  rfl

theorem head_snakemake_path (b n : String) :
    (snakemake_path b n).data.head? = some '.' := by
  rw [snakemake_path, String.data_append, String.data_append, String.data_append]
  rfl

theorem head_local_path (b n : String) :
    (local_path b n).data.head? = some '/' := by
  rw [local_path, String.data_append, String.data_append, String.data_append]
  rfl

theorem gcs_uri_ne_snakemake_path (b b' n n' : String) :
    gcs_uri b n ≠ snakemake_path b' n' := by
  intro h
  have hh := congrArg (fun s => s.data.head?) h
  simp only [head_gcs_uri, head_snakemake_path] at hh
  exact absurd (Option.some.inj hh) (by decide)

theorem gcs_uri_ne_local_path (b b' n n' : String) :
    gcs_uri b n ≠ local_path b' n' := by
  intro h
  have hh := congrArg (fun s => s.data.head?) h
  simp only [head_gcs_uri, head_local_path] at hh
  exact absurd (Option.some.inj hh) (by decide)

theorem snakemake_path_ne_local_path (b b' n n' : String) :
    snakemake_path b n ≠ local_path b' n' := by
  intro h
  have hh := congrArg (fun s => s.data.head?) h
  simp only [head_snakemake_path, head_local_path] at hh
  exact absurd (Option.some.inj hh) (by decide)

/-- Generic right-cancellation for the shared shape
`p ++ bucket ++ "/" ++ name` of the three key formats. -/
theorem key_shape_inj (p b n m : String)
    (h : p ++ b ++ "/" ++ n = p ++ b ++ "/" ++ m) : n = m := by
  have hd := congrArg String.data h
  simp only [String.data_append, List.append_assoc] at hd
  exact String.ext
    (List.append_cancel_left (List.append_cancel_left (List.append_cancel_left hd)))

theorem gcs_uri_inj (b n m : String) (h : gcs_uri b n = gcs_uri b m) :
    n = m :=
  key_shape_inj "gs://" b n m h

theorem snakemake_path_inj (b n m : String)
    (h : snakemake_path b n = snakemake_path b m) : n = m :=
  key_shape_inj ".snakemake/storage/gcs/" b n m h

theorem local_path_inj (b n m : String)
    (h : local_path b n = local_path b m) : n = m :=
  key_shape_inj "/mnt/data/blainey/qinling-analysis/gcs/" b n m h

/-! ### Dictionary and fold lemmas -/

theorem dictInsert_self (m : Cache) (k : String) (v : FileInfo) :
    dictInsert m k v k = some v := by
  simp [dictInsert]

theorem dictInsert_other (m : Cache) (k x : String) (v : FileInfo)
    (h : x ≠ k) : dictInsert m k v x = m x := by
  simp [dictInsert, h]

theorem dictInsert_eq_some (m : Cache) (k x : String) (v r : FileInfo)
    (h : dictInsert m k v x = some r) : r = v ∨ m x = some r := by
  by_cases hx : x = k
  · subst hx
    rw [dictInsert_self] at h
    exact Or.inl (Option.some.inj h).symm
  · rw [dictInsert_other m k x v hx] at h
    exact Or.inr h

theorem register_blob_at_gcs (bucket : String) (c : Cache) (b : Blob) :
    register_blob bucket c b (gcs_uri bucket b.name) = some (blobInfo b) := by
  rw [register_blob,
    dictInsert_other _ _ _ _ (gcs_uri_ne_local_path bucket bucket b.name b.name),
    dictInsert_other _ _ _ _ (gcs_uri_ne_snakemake_path bucket bucket b.name b.name),
    dictInsert_self]

theorem register_blob_at_snakemake (bucket : String) (c : Cache) (b : Blob) :
    register_blob bucket c b (snakemake_path bucket b.name) = some (blobInfo b) := by
  rw [register_blob,
    dictInsert_other _ _ _ _ (snakemake_path_ne_local_path bucket bucket b.name b.name),
    dictInsert_self]

theorem register_blob_at_local (bucket : String) (c : Cache) (b : Blob) :
    register_blob bucket c b (local_path bucket b.name) = some (blobInfo b) := by
  rw [register_blob, dictInsert_self]

theorem register_blob_at_other_gcs (bucket : String) (c : Cache) (b : Blob)
    (n : String) (h : b.name ≠ n) :
    register_blob bucket c b (gcs_uri bucket n) = c (gcs_uri bucket n) := by
  rw [register_blob,
    dictInsert_other _ _ _ _ (gcs_uri_ne_local_path bucket bucket n b.name),
    dictInsert_other _ _ _ _ (gcs_uri_ne_snakemake_path bucket bucket n b.name),
    dictInsert_other _ _ _ _ (fun he => h (gcs_uri_inj bucket n b.name he).symm)]

theorem register_blob_at_other_snakemake (bucket : String) (c : Cache) (b : Blob)
    (n : String) (h : b.name ≠ n) :
    register_blob bucket c b (snakemake_path bucket n) = c (snakemake_path bucket n) := by
  rw [register_blob,
    dictInsert_other _ _ _ _ (snakemake_path_ne_local_path bucket bucket n b.name),
    dictInsert_other _ _ _ _ (fun he => h (snakemake_path_inj bucket n b.name he).symm),
    dictInsert_other _ _ _ _ (fun he => (gcs_uri_ne_snakemake_path bucket bucket b.name n) he.symm)]

theorem register_blob_at_other_local (bucket : String) (c : Cache) (b : Blob)
    (n : String) (h : b.name ≠ n) :
    register_blob bucket c b (local_path bucket n) = c (local_path bucket n) := by
  rw [register_blob,
    dictInsert_other _ _ _ _ (fun he => h (local_path_inj bucket n b.name he).symm),
    dictInsert_other _ _ _ _ (fun he => (snakemake_path_ne_local_path bucket bucket b.name n) he.symm),
    dictInsert_other _ _ _ _ (fun he => (gcs_uri_ne_local_path bucket bucket b.name n) he.symm)]

/-- All three registered key formats of one blob name resolve to one
shared record in the dictionary `c`. -/
def TripleConsistent (bucket : String) (c : Cache) (n : String) : Prop :=
  ∃ r : FileInfo,
    c (gcs_uri bucket n) = some r ∧
    c (snakemake_path bucket n) = some r ∧
    c (local_path bucket n) = some r

theorem register_blob_establishes (bucket : String) (c : Cache) (b : Blob) :
    TripleConsistent bucket (register_blob bucket c b) b.name :=
  ⟨blobInfo b, register_blob_at_gcs bucket c b,
    register_blob_at_snakemake bucket c b, register_blob_at_local bucket c b⟩

theorem register_blob_preserves (bucket : String) (c : Cache) (b : Blob)
    (n : String) (h : TripleConsistent bucket c n) :
    TripleConsistent bucket (register_blob bucket c b) n := by
  by_cases hbn : b.name = n
  · subst hbn
    exact register_blob_establishes bucket c b
  · obtain ⟨r, h1, h2, h3⟩ := h
    exact ⟨r,
      by rw [register_blob_at_other_gcs bucket c b n hbn]; exact h1,
      by rw [register_blob_at_other_snakemake bucket c b n hbn]; exact h2,
      by rw [register_blob_at_other_local bucket c b n hbn]; exact h3⟩

theorem foldl_register_preserves (bucket : String) (blobs : List Blob)
    (c : Cache) (n : String) (h : TripleConsistent bucket c n) :
    TripleConsistent bucket (blobs.foldl (register_blob bucket) c) n := by
  induction blobs generalizing c with
  | nil => exact h
  | cons b bs ih =>
      exact ih (register_blob bucket c b) (register_blob_preserves bucket c b n h)

theorem foldl_register_mem (bucket : String) (blobs : List Blob)
    (c : Cache) (b : Blob) (hb : b ∈ blobs) :
    TripleConsistent bucket (blobs.foldl (register_blob bucket) c) b.name := by
  induction blobs generalizing c with
  | nil => cases hb
  | cons b' bs ih =>
      rcases List.mem_cons.mp hb with hb' | hb'
      · subst hb'
        exact foldl_register_preserves bucket bs (register_blob bucket c b) b.name
          (register_blob_establishes bucket c b)
      · exact ih (register_blob bucket c b') hb'

/-- Every record held in the dictionary carries `exists_flag = true`. -/
def AllExist (c : Cache) : Prop :=
  ∀ k r, c k = some r → r.exists_flag = true

theorem register_blob_allExist (bucket : String) (c : Cache) (b : Blob)
    (h : AllExist c) : AllExist (register_blob bucket c b) := by
  intro k r hr
  rcases dictInsert_eq_some _ _ _ _ _ hr with h1 | hr
  · subst h1; rfl
  rcases dictInsert_eq_some _ _ _ _ _ hr with h1 | hr
  · subst h1; rfl
  rcases dictInsert_eq_some _ _ _ _ _ hr with h1 | hr
  · subst h1; rfl
  · exact h k r hr

theorem foldl_register_allExist (bucket : String) (blobs : List Blob)
    (c : Cache) (h : AllExist c) :
    AllExist (blobs.foldl (register_blob bucket) c) := by
  induction blobs generalizing c with
  | nil => exact h
  | cons b bs ih =>
      exact ih (register_blob bucket c b) (register_blob_allExist bucket c b h)

/-- `k` is one of the key formats registered for some object of the
listing (spec: "key k registered for an object in O"). -/
def RegisteredKey (bucket : String) (blobs : List Blob) (k : String) : Prop :=
  ∃ b ∈ blobs,
    k = gcs_uri bucket b.name ∨ k = snakemake_path bucket b.name ∨
    k = local_path bucket b.name

theorem foldl_register_not_registered (bucket : String) (blobs : List Blob)
    (c : Cache) (k : String) (hk : ¬ RegisteredKey bucket blobs k)
    (hc : c k = none) :
    blobs.foldl (register_blob bucket) c k = none := by
  induction blobs generalizing c with
  | nil => exact hc
  | cons b bs ih =>
      have hkb : ¬ RegisteredKey bucket bs k := by
        intro ⟨b', hb', hf⟩
        exact hk ⟨b', List.mem_cons_of_mem b hb', hf⟩
      refine ih (register_blob bucket c b) hkb ?_
      have h1 : k ≠ gcs_uri bucket b.name := fun he =>
        hk ⟨b, List.mem_cons_self b bs, Or.inl he⟩
      have h2 : k ≠ snakemake_path bucket b.name := fun he =>
        hk ⟨b, List.mem_cons_self b bs, Or.inr (Or.inl he)⟩
      have h3 : k ≠ local_path bucket b.name := fun he =>
        hk ⟨b, List.mem_cons_self b bs, Or.inr (Or.inr he)⟩
      rw [register_blob, dictInsert_other _ _ _ _ h3,
        dictInsert_other _ _ _ _ h2, dictInsert_other _ _ _ _ h1]
      exact hc

/-! ### Patched lookup methods and global state -/

/-- `patched_iofile_exists` (lines 120-129).  The caller-supplied
fallback `fb` stands for `await _original_iofile_exists(self)`; its
`Except` result models a normal return versus a raised exception.  On a
hit the hit counter is incremented and the cached flag returned; on a
miss the miss counter is incremented and the fallback's outcome is
returned unchanged. -/
def patched_iofile_exists {εb : Type} (c : Cache) (st : Stats)
    (path : String) (fb : String → Except εb Bool) :
    Except εb Bool × Stats :=
  match c path with
  | some fi =>
      (Except.ok fi.exists_flag, { st with cache_hits := st.cache_hits + 1 })
  | none =>
      (fb path, { st with cache_misses := st.cache_misses + 1 })

/-- `patched_iofile_size` (lines 132-139).  On a hit the cached byte
count is returned, on a miss the fallback's outcome is returned; the
statistics dictionary is not touched in either branch (the source
increments no counter here). -/
def patched_iofile_size {εn : Type} (c : Cache) (st : Stats)
    (path : String) (fb : String → Except εn Nat) :
    Except εn Nat × Stats :=
  match c path with
  | some fi => (Except.ok fi.size, st)
  | none => (fb path, st)

/-- The module-level mutable globals, made explicit: `_bulk_cache`,
`_cache_stats`, `_inventory_done`, plus `listing_calls`, the
call-counting instrumentation of the backing store (each invocation of
`bulk_inventory_gcs` performs exactly one `list_blobs` attempt). -/
structure GlobalState where
  bulk_cache : Cache
  cache_stats : Stats
  inventory_done : Bool
  listing_calls : Nat

/-- The state right after module import (lines 41-52):
`_bulk_cache = {}`, zeroed statistics, `_inventory_done = False`,
no listing call yet. -/
def init_state : GlobalState :=
  { bulk_cache := emptyCache, cache_stats := stats0,
    inventory_done := false, listing_calls := 0 }

/-- The inventory trigger inside `early_inventory_job_selector`
(lines 225-237): if `_inventory_done` is still false, run
`bulk_inventory_gcs` (one listing attempt), install its dictionary and
set `_inventory_done = True`; otherwise reuse the existing cache and do
nothing.  The interleaved progress printing and the delegation to the
original `job_selector` are I/O and scheduler concerns outside the
cache layer. -/
def early_inventory_trigger (listing : Except ListingError (List Blob))
    (bucket : String) (elapsed : Nat) (s : GlobalState) : GlobalState :=
  if s.inventory_done then s
  else
    let r := bulk_inventory_gcs listing bucket elapsed s.cache_stats
    { s with
        bulk_cache := r.1,
        cache_stats := r.2,
        inventory_done := true,
        listing_calls := s.listing_calls + 1 }

/-- Line 31 of the source:
`os.environ.get('GCS_JOB_SCHEDULER_PATCH_DISABLE', '0') == '1'`. -/
def PATCH_DISABLED (env_value : Option String) : Bool :=
  env_value.getD "0" == "1"

/-- The effective `_IOFile.exists` after module import: when the
disable flag is set the module stops before `apply_patch()` (lines
33-35), so the method stays the original per-object check (the
fallback); otherwise it is the patched method. -/
def effective_exists {εb : Type} (disabled : Bool) (c : Cache)
    (st : Stats) (path : String) (fb : String → Except εb Bool) :
    Except εb Bool × Stats :=
  if disabled then (fb path, st)
  else patched_iofile_exists c st path fb

/-- The effective `_IOFile.size` after module import, analogous to
`effective_exists`. -/
def effective_size {εn : Type} (disabled : Bool) (c : Cache)
    (st : Stats) (path : String) (fb : String → Except εn Nat) :
    Except εn Nat × Stats :=
  if disabled then (fb path, st)
  else patched_iofile_size c st path fb

/-- The effective inventory trigger: when the disable flag is set,
`job_selector` is never patched, so no inventory ever runs. -/
def effective_trigger (disabled : Bool)
    (listing : Except ListingError (List Blob)) (bucket : String)
    (elapsed : Nat) (s : GlobalState) : GlobalState :=
  if disabled then s
  else early_inventory_trigger listing bucket elapsed s

/-- One observable interaction with the cache layer. -/
inductive Event where
  | queryExists (path : String)
  | querySize (path : String)
  | runTrigger (listing : Except ListingError (List Blob)) (elapsed : Nat)

/-- Whether an event is a lookup (as opposed to an inventory trigger). -/
def Event.isLookup : Event → Bool
  | Event.queryExists _ => true
  | Event.querySize _ => true
  | Event.runTrigger _ _ => false

/-- Apply one event to the global state, under fixed fallbacks. -/
def apply_event {εb εn : Type} (disabled : Bool) (bucket : String)
    (fbE : String → Except εb Bool) (fbS : String → Except εn Nat)
    (s : GlobalState) : Event → GlobalState
  | Event.queryExists p =>
      { s with cache_stats :=
          (effective_exists disabled s.bulk_cache s.cache_stats p fbE).2 }
  | Event.querySize p =>
      { s with cache_stats :=
          (effective_size disabled s.bulk_cache s.cache_stats p fbS).2 }
  | Event.runTrigger listing elapsed =>
      effective_trigger disabled listing bucket elapsed s

/-- Run a sequence of interactions against the cache layer. -/
def run_events {εb εn : Type} (disabled : Bool) (bucket : String)
    (fbE : String → Except εb Bool) (fbS : String → Except εn Nat)
    (events : List Event) (s : GlobalState) : GlobalState :=
  events.foldl (apply_event disabled bucket fbE fbS) s

/-- Statistics evolution of a sequence of `exists` queries against a
fixed populated dictionary (the setting of the hit/miss accounting
property). -/
def run_exists_queries {εb : Type} (c : Cache)
    (fb : String → Except εb Bool) (st : Stats) (paths : List String) :
    Stats :=
  paths.foldl (fun s p => (patched_iofile_exists c s p fb).2) st

/-! ### Interleaving model of concurrent triggers

The trigger is guarded only by the plain boolean `_inventory_done`
(line 225 reads it, line 230 sets it); there is no mutex or
single-flight coordination in the module.  A concurrent caller is
modelled as a thread executing two atomic steps: first the test
`if not _inventory_done:` (line 225), then — if the test saw `False` —
the block `_bulk_cache = bulk_inventory_gcs(); _inventory_done = True`
(lines 229-230) as one atomic action.  Making the body atomic only
strengthens the model in the code's favour; the race lives between the
test and the body, because the listing call blocks on the network. -/

/-- Program counter of one caller of the trigger. -/
inductive ThreadPC where
  | atCheck
  | atInventory
  | finished
deriving DecidableEq

/-- Shared state plus the two callers' program counters. -/
structure ConcState where
  inventory_done : Bool
  listing_calls : Nat
  pc0 : ThreadPC
  pc1 : ThreadPC
deriving DecidableEq

/-- Both callers about to run the trigger, inventory not yet done. -/
def conc_init : ConcState :=
  { inventory_done := false, listing_calls := 0,
    pc0 := ThreadPC.atCheck, pc1 := ThreadPC.atCheck }

/-- One atomic step of the caller identified by `tid`. -/
def conc_step (s : ConcState) (tid : Bool) : ConcState :=
  let pc := if tid then s.pc1 else s.pc0
  let set_pc := fun (s' : ConcState) (pc' : ThreadPC) =>
    if tid then { s' with pc1 := pc' } else { s' with pc0 := pc' }
  match pc with
  | ThreadPC.atCheck =>
      if s.inventory_done then set_pc s ThreadPC.finished
      else set_pc s ThreadPC.atInventory
  | ThreadPC.atInventory =>
      set_pc { s with inventory_done := true,
                      listing_calls := s.listing_calls + 1 }
        ThreadPC.finished
  | ThreadPC.finished => s

/-- Execute the steps of the two callers in the given order. -/
def run_sched (sched : List Bool) (s : ConcState) : ConcState :=
  sched.foldl conc_step s

/-! ### Accounting helper lemmas -/

theorem run_exists_queries_nil {εb : Type} (c : Cache)
    (fb : String → Except εb Bool) (st : Stats) :
    run_exists_queries c fb st [] = st := rfl

theorem patched_exists_stats_hit {εb : Type} (c : Cache) (st : Stats)
    (p : String) (fb : String → Except εb Bool) (fi : FileInfo)
    (h : c p = some fi) :
    (patched_iofile_exists c st p fb).2
      = { st with cache_hits := st.cache_hits + 1 } := by
  simp [patched_iofile_exists, h]

theorem patched_exists_stats_miss {εb : Type} (c : Cache) (st : Stats)
    (p : String) (fb : String → Except εb Bool) (h : c p = none) :
    (patched_iofile_exists c st p fb).2
      = { st with cache_misses := st.cache_misses + 1 } := by
  simp [patched_iofile_exists, h]

theorem run_exists_queries_accounting {εb : Type} (c : Cache)
    (fb : String → Except εb Bool) (paths : List String) (st : Stats) :
    (run_exists_queries c fb st paths).cache_hits
        = st.cache_hits + paths.countP (fun p => (c p).isSome) ∧
    (run_exists_queries c fb st paths).cache_misses
        = st.cache_misses + paths.countP (fun p => !(c p).isSome) := by
  induction paths generalizing st with
  | nil => simp [run_exists_queries]
  | cons p ps ih =>
      have hstep : run_exists_queries c fb st (p :: ps)
          = run_exists_queries c fb ((patched_iofile_exists c st p fb).2) ps := rfl
      cases hc : c p with
      | some fi =>
          rw [hstep, patched_exists_stats_hit c st p fb fi hc]
          obtain ⟨ih1, ih2⟩ := ih { st with cache_hits := st.cache_hits + 1 }
          constructor
          · rw [ih1]
            simp [List.countP_cons, hc]
            omega
          · rw [ih2]
            simp [List.countP_cons, hc]
      | none =>
          rw [hstep, patched_exists_stats_miss c st p fb hc]
          obtain ⟨ih1, ih2⟩ := ih { st with cache_misses := st.cache_misses + 1 }
          constructor
          · rw [ih1]
            simp [List.countP_cons, hc]
          · rw [ih2]
            simp [List.countP_cons, hc]
            omega

theorem countP_bool_split (paths : List String) (q : String → Bool) :
    paths.countP q + paths.countP (fun p => !q p) = paths.length := by
  induction paths with
  | nil => simp
  | cons p ps ih =>
      cases hq : q p <;> simp [List.countP_cons, hq] <;> omega

/-! ### Claim theorems -/

/-- Claim C1: a failure of the backing store's listing call is caught
inside `bulk_inventory_gcs` and converted into the empty snapshot
instead of propagating (the statistics are left untouched); the
trigger still installs that empty snapshot and marks the inventory
done; and afterwards every `exists`/`size` query takes the fallback
path and returns exactly the fallback's outcome, so the only exception
that can surface is the fallback's own. -/
theorem claim_C1_listing_failure_degrades {εb εn : Type}
    (e : ListingError) (bucket : String) (elapsed : Nat)
    (s : GlobalState) (hs : s.inventory_done = false)
    (fbE : String → Except εb Bool) (fbS : String → Except εn Nat) :
    bulk_inventory_gcs (Except.error e) bucket elapsed s.cache_stats
        = (emptyCache, s.cache_stats) ∧
    (early_inventory_trigger (Except.error e) bucket elapsed s).bulk_cache
        = emptyCache ∧
    (early_inventory_trigger (Except.error e) bucket elapsed s).inventory_done
        = true ∧
    (∀ (p : String) (st : Stats),
      patched_iofile_exists emptyCache st p fbE
        = (fbE p, { st with cache_misses := st.cache_misses + 1 })) ∧
    (∀ (p : String) (st : Stats),
      patched_iofile_size emptyCache st p fbS = (fbS p, st)) := by
  refine ⟨rfl, ?_, ?_, ?_, ?_⟩
  · simp [early_inventory_trigger, hs, bulk_inventory_gcs]
  · simp [early_inventory_trigger, hs]
  · intro p st
    simp [patched_iofile_exists, emptyCache]
  · intro p st
    simp [patched_iofile_size, emptyCache]

/-- Witness for C1 at a concrete failing listing: the initial state
satisfies the hypothesis, and after the trigger the inventory is
marked done with the empty snapshot installed, while a concrete
`exists` query returns the fallback's answer. -/
theorem claim_C1_witness :
    init_state.inventory_done = false ∧
    (early_inventory_trigger (Except.error ⟨"403 quota exceeded"⟩)
        "scale1" 7 init_state).bulk_cache = emptyCache ∧
    @patched_iofile_exists Unit emptyCache stats0 "gs://scale1/a/1.txt"
        (fun _ => Except.ok false)
      = (Except.ok false, { stats0 with cache_misses := 1 }) := by
  have h := @claim_C1_listing_failure_degrades Unit Unit
    ⟨"403 quota exceeded"⟩ "scale1" 7 init_state rfl
    (fun _ => Except.ok false) (fun _ => Except.ok 0)
  exact ⟨rfl, h.2.1, h.2.2.2.1 "gs://scale1/a/1.txt" stats0⟩

/-- Claim C2 as stated is false on the code: `patched_iofile_size`
touches neither counter.  At a concrete populated dictionary holding
only `gs://scale1/a/1.txt`, the miss query `size("gs://scale1/a/3.txt")`
leaves the statistics exactly as they were (miss counter still 0), and
the hit query `size("gs://scale1/a/1.txt")` leaves the hit counter at
0 as well — contradicting "increments the hit counter" and "increments
the miss counter by exactly 1". -/
theorem claim_C2_counterexample :
    (@patched_iofile_size Unit
        (dictInsert emptyCache "gs://scale1/a/1.txt" ⟨true, 10, none⟩)
        stats0 "gs://scale1/a/3.txt" (fun _ => Except.ok 7)).2
      = stats0 ∧
    (@patched_iofile_size Unit
        (dictInsert emptyCache "gs://scale1/a/1.txt" ⟨true, 10, none⟩)
        stats0 "gs://scale1/a/1.txt" (fun _ => Except.ok 7)).2
      = stats0 ∧
    stats0.cache_misses = 0 ∧ stats0.cache_hits = 0 ∧
    ¬ ((@patched_iofile_size Unit
        (dictInsert emptyCache "gs://scale1/a/1.txt" ⟨true, 10, none⟩)
        stats0 "gs://scale1/a/3.txt" (fun _ => Except.ok 7)).2.cache_misses
          = stats0.cache_misses + 1) := by
  refine ⟨rfl, rfl, rfl, rfl, ?_⟩
  decide

/-- Claim C2 amended: the size lookup shares the hit/miss *value*
contract of the exists lookup — on a hit it returns the cached byte
count without consulting the fallback, on a miss it delegates to the
fallback and returns whatever the fallback reports — but unlike
`exists` it leaves the hit and miss counters (indeed the whole
statistics record) unchanged in both cases. -/
theorem claim_C2_size_value_contract {εn : Type} (c : Cache)
    (st : Stats) (p : String) (fb : String → Except εn Nat) :
    (∀ fi : FileInfo, c p = some fi →
        patched_iofile_size c st p fb = (Except.ok fi.size, st)) ∧
    (c p = none → patched_iofile_size c st p fb = (fb p, st)) ∧
    (patched_iofile_size c st p fb).2 = st := by
  refine ⟨?_, ?_, ?_⟩
  · intro fi h
    simp [patched_iofile_size, h]
  · intro h
    simp [patched_iofile_size, h]
  · cases h : c p <;> simp [patched_iofile_size, h]

/-- Witness for the amended C2 at a concrete dictionary: the hit
returns the cached 10 bytes, the miss returns the fallback's 7, and
the statistics are untouched in both cases. -/
theorem claim_C2_size_value_contract_witness :
    @patched_iofile_size Unit
        (dictInsert emptyCache "gs://scale1/a/1.txt" ⟨true, 10, none⟩)
        stats0 "gs://scale1/a/1.txt" (fun _ => Except.ok 7)
      = (Except.ok 10, stats0) ∧
    @patched_iofile_size Unit
        (dictInsert emptyCache "gs://scale1/a/1.txt" ⟨true, 10, none⟩)
        stats0 "gs://scale1/a/3.txt" (fun _ => Except.ok 7)
      = (Except.ok 7, stats0) := by
  constructor
  · exact (claim_C2_size_value_contract
      (dictInsert emptyCache "gs://scale1/a/1.txt" ⟨true, 10, none⟩)
      stats0 "gs://scale1/a/1.txt" (fun _ => Except.ok 7)).1 ⟨true, 10, none⟩ rfl
  · exact (claim_C2_size_value_contract
      (dictInsert emptyCache "gs://scale1/a/1.txt" ⟨true, 10, none⟩)
      stats0 "gs://scale1/a/3.txt" (fun _ => Except.ok 7)).2.1 rfl

/-- Claim C3: on a hit, `exists` increments the hit counter by one and
returns the cached existence flag whatever the fallback is (no remote
call is consulted); on a miss it increments the miss counter by one and
returns the fallback's outcome; and over any sequence of `exists`
queries the final counters are the initial ones plus the number of
hits, respectively misses, in the sequence, which together sum to the
sequence length. -/
theorem claim_C3_exists_contract_and_accounting {εb : Type} (c : Cache)
    (st : Stats) (fb : String → Except εb Bool) :
    (∀ (p : String) (fi : FileInfo), c p = some fi →
        patched_iofile_exists c st p fb
          = (Except.ok fi.exists_flag,
             { st with cache_hits := st.cache_hits + 1 })) ∧
    (∀ p : String, c p = none →
        patched_iofile_exists c st p fb
          = (fb p, { st with cache_misses := st.cache_misses + 1 })) ∧
    (∀ paths : List String,
        (run_exists_queries c fb st paths).cache_hits
            = st.cache_hits + paths.countP (fun p => (c p).isSome) ∧
        (run_exists_queries c fb st paths).cache_misses
            = st.cache_misses + paths.countP (fun p => !(c p).isSome) ∧
        paths.countP (fun p => (c p).isSome)
            + paths.countP (fun p => !(c p).isSome) = paths.length) := by
  refine ⟨?_, ?_, ?_⟩
  · intro p fi h
    simp [patched_iofile_exists, h]
  · intro p h
    simp [patched_iofile_exists, h]
  · intro paths
    obtain ⟨h1, h2⟩ := run_exists_queries_accounting c fb paths st
    exact ⟨h1, h2, countP_bool_split paths (fun p => (c p).isSome)⟩

/-- Witness for C3: the scenario of the spec — a dictionary holding
`a/1.txt` and `a/2.txt` under their GCS URIs, queried for one hit and
one miss — reports one hit, one miss, and the cached flag on the hit. -/
theorem claim_C3_witness :
    @patched_iofile_exists Unit
        (dictInsert (dictInsert emptyCache "gs://scale1/a/1.txt" ⟨true, 10, none⟩)
          "gs://scale1/a/2.txt" ⟨true, 20, none⟩)
        stats0 "gs://scale1/a/1.txt" (fun _ => Except.ok false)
      = (Except.ok true, { stats0 with cache_hits := 1 }) ∧
    (@run_exists_queries Unit
        (dictInsert (dictInsert emptyCache "gs://scale1/a/1.txt" ⟨true, 10, none⟩)
          "gs://scale1/a/2.txt" ⟨true, 20, none⟩)
        (fun _ => Except.ok false) stats0
        ["gs://scale1/a/1.txt", "gs://scale1/a/3.txt"]).cache_hits = 1 ∧
    (@run_exists_queries Unit
        (dictInsert (dictInsert emptyCache "gs://scale1/a/1.txt" ⟨true, 10, none⟩)
          "gs://scale1/a/2.txt" ⟨true, 20, none⟩)
        (fun _ => Except.ok false) stats0
        ["gs://scale1/a/1.txt", "gs://scale1/a/3.txt"]).cache_misses = 1 := by
  have h := @claim_C3_exists_contract_and_accounting Unit
    (dictInsert (dictInsert emptyCache "gs://scale1/a/1.txt" ⟨true, 10, none⟩)
      "gs://scale1/a/2.txt" ⟨true, 20, none⟩)
    stats0 (fun _ => Except.ok false)
  refine ⟨?_, ?_, ?_⟩
  · have := h.1 "gs://scale1/a/1.txt" ⟨true, 10, none⟩ (by decide)
    rw [this]
    rfl
  · rw [(h.2.2 ["gs://scale1/a/1.txt", "gs://scale1/a/3.txt"]).1]
    decide
  · rw [(h.2.2 ["gs://scale1/a/1.txt", "gs://scale1/a/3.txt"]).2.1]
    decide

/-- Claim C4: from the initial state, the first trigger performs
exactly one listing call and marks the inventory done — whatever the
listing outcome, including a failure — and a second trigger (with any
listing outcome of its own) returns the state unchanged, so two
triggers in sequence still show exactly one listing call. -/
theorem claim_C4_trigger_idempotent
    (listing listing2 : Except ListingError (List Blob))
    (bucket bucket2 : String) (elapsed elapsed2 : Nat) :
    (early_inventory_trigger listing bucket elapsed init_state).inventory_done
        = true ∧
    (early_inventory_trigger listing bucket elapsed init_state).listing_calls
        = 1 ∧
    early_inventory_trigger listing2 bucket2 elapsed2
        (early_inventory_trigger listing bucket elapsed init_state)
      = early_inventory_trigger listing bucket elapsed init_state ∧
    (early_inventory_trigger listing2 bucket2 elapsed2
        (early_inventory_trigger listing bucket elapsed init_state)).listing_calls
      = 1 := by
  have hdone : (early_inventory_trigger listing bucket elapsed init_state).inventory_done
      = true := by
    simp [early_inventory_trigger, init_state]
  have hcalls : (early_inventory_trigger listing bucket elapsed init_state).listing_calls
      = 1 := by
    simp [early_inventory_trigger, init_state]
  have hnoop : early_inventory_trigger listing2 bucket2 elapsed2
      (early_inventory_trigger listing bucket elapsed init_state)
      = early_inventory_trigger listing bucket elapsed init_state := by
    rw [early_inventory_trigger, hdone]
    simp
  exact ⟨hdone, hcalls, hnoop, by rw [hnoop, hcalls]⟩

/-- Witness for C4 at concrete inputs: one successful listing of a
single blob followed by a second (failing) trigger still counts one
listing call in total, and the first trigger — here a failing one —
still marks the inventory done. -/
theorem claim_C4_witness :
    (early_inventory_trigger
        (Except.error ⟨"network unreachable"⟩) "scale1" 3
        (early_inventory_trigger
          (Except.ok [⟨"qinling/a/1.txt", 10, none⟩]) "scale1" 2
          init_state)).listing_calls = 1 ∧
    (early_inventory_trigger (Except.error ⟨"network unreachable"⟩)
        "scale1" 3 init_state).inventory_done = true :=
  ⟨(claim_C4_trigger_idempotent
      (Except.ok [⟨"qinling/a/1.txt", 10, none⟩])
      (Except.error ⟨"network unreachable"⟩) "scale1" "scale1" 2 3).2.2.2,
   (claim_C4_trigger_idempotent (Except.error ⟨"network unreachable"⟩)
      (Except.error ⟨"network unreachable"⟩) "scale1" "scale1" 3 3).1⟩

/-- Claim C5: for every object of the listing, the three registered
path formats — GCS URI, snakemake-internal, locally-mounted — resolve
to one shared record in the built dictionary, so an `exists` or `size`
query under any of the three formats is a hit returning that record's
identical existence flag and byte count; in particular a miss under
one format while another format of the same object hits is
impossible. -/
theorem claim_C5_multikey_consistent {εb εn : Type} (bucket : String)
    (blobs : List Blob) (b : Blob) (hb : b ∈ blobs) (st : Stats)
    (fbE : String → Except εb Bool) (fbS : String → Except εn Nat) :
    ∃ r : FileInfo,
      bulk_list_to_cache bucket blobs (gcs_uri bucket b.name) = some r ∧
      bulk_list_to_cache bucket blobs (snakemake_path bucket b.name) = some r ∧
      bulk_list_to_cache bucket blobs (local_path bucket b.name) = some r ∧
      ∀ k : String,
        (k = gcs_uri bucket b.name ∨ k = snakemake_path bucket b.name ∨
          k = local_path bucket b.name) →
        patched_iofile_exists (bulk_list_to_cache bucket blobs) st k fbE
            = (Except.ok r.exists_flag,
               { st with cache_hits := st.cache_hits + 1 }) ∧
        patched_iofile_size (bulk_list_to_cache bucket blobs) st k fbS
            = (Except.ok r.size, st) := by
  obtain ⟨r, h1, h2, h3⟩ := foldl_register_mem bucket blobs emptyCache b hb
  refine ⟨r, h1, h2, h3, ?_⟩
  intro k hk
  have hr : bulk_list_to_cache bucket blobs k = some r := by
    rcases hk with hk | hk | hk <;> rw [hk] <;> assumption
  exact ⟨by simp [patched_iofile_exists, hr],
         by simp [patched_iofile_size, hr]⟩

/-- Witness for C5: one listed blob, queried under its snakemake and
local formats as well as the GCS URI — all three are populated with one
shared record. -/
theorem claim_C5_witness :
    (⟨"qinling/a/1.txt", 10, none⟩ : Blob)
        ∈ ([⟨"qinling/a/1.txt", 10, none⟩] : List Blob) ∧
    ∃ r : FileInfo,
      bulk_list_to_cache "scale1" [⟨"qinling/a/1.txt", 10, none⟩]
          "gs://scale1/qinling/a/1.txt" = some r ∧
      bulk_list_to_cache "scale1" [⟨"qinling/a/1.txt", 10, none⟩]
          ".snakemake/storage/gcs/scale1/qinling/a/1.txt" = some r ∧
      bulk_list_to_cache "scale1" [⟨"qinling/a/1.txt", 10, none⟩]
          "/mnt/data/blainey/qinling-analysis/gcs/scale1/qinling/a/1.txt"
        = some r := by
  refine ⟨by decide, ?_⟩
  obtain ⟨r, h1, h2, h3, _⟩ := @claim_C5_multikey_consistent Unit Unit
    "scale1" [⟨"qinling/a/1.txt", 10, none⟩] ⟨"qinling/a/1.txt", 10, none⟩
    (by decide) stats0 (fun _ => Except.ok false) (fun _ => Except.ok 0)
  exact ⟨r, h1, h2, h3⟩

/-- Claim C6: in the dictionary built from a successful listing of an
object set, every key registered for a listed object answers an
`exists` query with `true` (a hit); no entry of the dictionary ever
carries a false existence flag; and for a key not registered for any
listed object the query is a miss that returns exactly the fallback's
outcome — so a `false` answer can only come from the fallback path. -/
theorem claim_C6_registered_keys_exist {εb : Type} (bucket : String)
    (blobs : List Blob) (st : Stats) (fbE : String → Except εb Bool) :
    (∀ k : String, RegisteredKey bucket blobs k →
        patched_iofile_exists (bulk_list_to_cache bucket blobs) st k fbE
          = (Except.ok true, { st with cache_hits := st.cache_hits + 1 })) ∧
    (∀ (k : String) (r : FileInfo),
        bulk_list_to_cache bucket blobs k = some r → r.exists_flag = true) ∧
    (∀ k : String, ¬ RegisteredKey bucket blobs k →
        patched_iofile_exists (bulk_list_to_cache bucket blobs) st k fbE
          = (fbE k, { st with cache_misses := st.cache_misses + 1 })) := by
  have hall : AllExist (bulk_list_to_cache bucket blobs) :=
    foldl_register_allExist bucket blobs emptyCache (fun k r h => by cases h)
  refine ⟨?_, hall, ?_⟩
  · intro k hk
    obtain ⟨b, hb, hf⟩ := hk
    obtain ⟨r, h1, h2, h3⟩ := foldl_register_mem bucket blobs emptyCache b hb
    have hr : bulk_list_to_cache bucket blobs k = some r := by
      rcases hf with hf | hf | hf <;> rw [hf] <;> assumption
    have hflag : r.exists_flag = true := hall k r hr
    simp [patched_iofile_exists, hr, hflag]
  · intro k hk
    have hnone : bulk_list_to_cache bucket blobs k = none :=
      foldl_register_not_registered bucket blobs emptyCache k hk rfl
    simp [patched_iofile_exists, hnone]

/-- Witness for C6: with one listed blob, its GCS URI is a registered
key and answers `true`, while an unrelated key is unregistered and the
query returns the fallback's `false`. -/
theorem claim_C6_witness :
    @patched_iofile_exists Unit
        (bulk_list_to_cache "scale1" [⟨"qinling/a/1.txt", 10, none⟩])
        stats0 "gs://scale1/qinling/a/1.txt" (fun _ => Except.ok false)
      = (Except.ok true, { stats0 with cache_hits := 1 }) ∧
    @patched_iofile_exists Unit
        (bulk_list_to_cache "scale1" [⟨"qinling/a/1.txt", 10, none⟩])
        stats0 "gs://scale1/qinling/a/9.txt" (fun _ => Except.ok false)
      = (Except.ok false, { stats0 with cache_misses := 1 }) := by
  have h := @claim_C6_registered_keys_exist Unit "scale1"
    [⟨"qinling/a/1.txt", 10, none⟩] stats0 (fun _ => Except.ok false)
  constructor
  · have := h.1 "gs://scale1/qinling/a/1.txt"
      ⟨⟨"qinling/a/1.txt", 10, none⟩, by decide, Or.inl rfl⟩
    rw [this]
    rfl
  · have hnot : ¬ RegisteredKey "scale1" [⟨"qinling/a/1.txt", 10, none⟩]
        "gs://scale1/qinling/a/9.txt" := by
      intro ⟨b, hb, hf⟩
      have hb' : b = (⟨"qinling/a/1.txt", 10, none⟩ : Blob) := by
        simpa using hb
      subst hb'
      rcases hf with hf | hf | hf <;> revert hf <;> decide
    have := h.2.2 "gs://scale1/qinling/a/9.txt" hnot
    rw [this]
    rfl

/-! ### Frame and monotonicity helper lemmas -/

theorem apply_event_lookup_cache {εb εn : Type} (disabled : Bool)
    (bucket : String) (fbE : String → Except εb Bool)
    (fbS : String → Except εn Nat) (s : GlobalState) (e : Event)
    (he : e.isLookup = true) :
    (apply_event disabled bucket fbE fbS s e).bulk_cache = s.bulk_cache := by
  cases e with
  | queryExists p => rfl
  | querySize p => rfl
  | runTrigger listing elapsed => cases he

theorem run_events_lookup_cache {εb εn : Type} (disabled : Bool)
    (bucket : String) (fbE : String → Except εb Bool)
    (fbS : String → Except εn Nat) (events : List Event)
    (hev : ∀ e ∈ events, e.isLookup = true) (s : GlobalState) :
    (run_events disabled bucket fbE fbS events s).bulk_cache
      = s.bulk_cache := by
  induction events generalizing s with
  | nil => rfl
  | cons e es ih =>
      have hstep : run_events disabled bucket fbE fbS (e :: es) s
          = run_events disabled bucket fbE fbS es
              (apply_event disabled bucket fbE fbS s e) := rfl
      rw [hstep, ih (fun e' he' => hev e' (List.mem_cons_of_mem e he')),
        apply_event_lookup_cache disabled bucket fbE fbS s e
          (hev e (List.mem_cons_self e es))]

theorem apply_event_stats_mono {εb εn : Type} (disabled : Bool)
    (bucket : String) (fbE : String → Except εb Bool)
    (fbS : String → Except εn Nat) (s : GlobalState) (e : Event) :
    s.cache_stats.cache_hits
        ≤ (apply_event disabled bucket fbE fbS s e).cache_stats.cache_hits ∧
    s.cache_stats.cache_misses
        ≤ (apply_event disabled bucket fbE fbS s e).cache_stats.cache_misses ∧
    s.cache_stats.inventory_calls
        ≤ (apply_event disabled bucket fbE fbS s e).cache_stats.inventory_calls := by
  cases e with
  | queryExists p =>
      cases disabled with
      | true => exact ⟨Nat.le_refl _, Nat.le_refl _, Nat.le_refl _⟩
      | false =>
          cases hc : s.bulk_cache p with
          | some fi =>
              simp [apply_event, effective_exists, patched_iofile_exists, hc]
          | none =>
              simp [apply_event, effective_exists, patched_iofile_exists, hc]
  | querySize p =>
      cases disabled with
      | true => exact ⟨Nat.le_refl _, Nat.le_refl _, Nat.le_refl _⟩
      | false =>
          cases hc : s.bulk_cache p with
          | some fi =>
              simp [apply_event, effective_size, patched_iofile_size, hc]
          | none =>
              simp [apply_event, effective_size, patched_iofile_size, hc]
  | runTrigger listing elapsed =>
      cases disabled with
      | true => exact ⟨Nat.le_refl _, Nat.le_refl _, Nat.le_refl _⟩
      | false =>
          cases hdone : s.inventory_done with
          | true =>
              simp [apply_event, effective_trigger, early_inventory_trigger, hdone]
          | false =>
              cases listing with
              | ok blobs =>
                  simp [apply_event, effective_trigger, early_inventory_trigger,
                    hdone, bulk_inventory_gcs]
              | error err =>
                  simp [apply_event, effective_trigger, early_inventory_trigger,
                    hdone, bulk_inventory_gcs]

theorem run_events_stats_mono {εb εn : Type} (disabled : Bool)
    (bucket : String) (fbE : String → Except εb Bool)
    (fbS : String → Except εn Nat) (events : List Event) (s : GlobalState) :
    s.cache_stats.cache_hits
        ≤ (run_events disabled bucket fbE fbS events s).cache_stats.cache_hits ∧
    s.cache_stats.cache_misses
        ≤ (run_events disabled bucket fbE fbS events s).cache_stats.cache_misses ∧
    s.cache_stats.inventory_calls
        ≤ (run_events disabled bucket fbE fbS events s).cache_stats.inventory_calls := by
  induction events generalizing s with
  | nil => exact ⟨Nat.le_refl _, Nat.le_refl _, Nat.le_refl _⟩
  | cons e es ih =>
      obtain ⟨h1, h2, h3⟩ :=
        apply_event_stats_mono disabled bucket fbE fbS s e
      obtain ⟨g1, g2, g3⟩ := ih (apply_event disabled bucket fbE fbS s e)
      exact ⟨Nat.le_trans h1 g1, Nat.le_trans h2 g2, Nat.le_trans h3 g3⟩

/-- Claim C7: no lookup ever mutates the installed snapshot — after any
sequence of `exists`/`size` queries the dictionary is the one that was
installed — and in particular a fallback result is never written back:
a key that was missing is still missing afterwards, so querying it
again re-invokes the fallback (and counts another miss). -/
theorem claim_C7_lookups_never_mutate_snapshot {εb εn : Type}
    (bucket : String) (fbE : String → Except εb Bool)
    (fbS : String → Except εn Nat) (events : List Event)
    (hev : ∀ e ∈ events, e.isLookup = true) (s : GlobalState) (p : String) :
    (run_events false bucket fbE fbS events s).bulk_cache = s.bulk_cache ∧
    (s.bulk_cache p = none →
      patched_iofile_exists
          (run_events false bucket fbE fbS events s).bulk_cache
          (run_events false bucket fbE fbS events s).cache_stats p fbE
        = (fbE p,
           { (run_events false bucket fbE fbS events s).cache_stats with
              cache_misses :=
                (run_events false bucket fbE fbS events s).cache_stats.cache_misses
                  + 1 })) ∧
    (s.bulk_cache p = none →
      patched_iofile_size
          (run_events false bucket fbE fbS events s).bulk_cache
          (run_events false bucket fbE fbS events s).cache_stats p fbS
        = (fbS p, (run_events false bucket fbE fbS events s).cache_stats)) := by
  have hframe := run_events_lookup_cache false bucket fbE fbS events hev s
  refine ⟨hframe, ?_, ?_⟩
  · intro hp
    rw [hframe]
    simp [patched_iofile_exists, hp]
  · intro hp
    rw [hframe]
    simp [patched_iofile_size, hp]

/-- Witness for C7: after an `exists` miss and a `size` miss on the
same absent key, the snapshot still lacks the key, so a further query
still takes the fallback path. -/
theorem claim_C7_witness :
    (@run_events Unit Unit false "scale1"
        (fun _ => Except.ok false) (fun _ => Except.ok 7)
        [Event.queryExists "gs://scale1/a/3.txt",
         Event.querySize "gs://scale1/a/3.txt"]
        init_state).bulk_cache = init_state.bulk_cache ∧
    @patched_iofile_exists Unit
        (@run_events Unit Unit false "scale1"
          (fun _ => Except.ok false) (fun _ => Except.ok 7)
          [Event.queryExists "gs://scale1/a/3.txt",
           Event.querySize "gs://scale1/a/3.txt"]
          init_state).bulk_cache
        (@run_events Unit Unit false "scale1"
          (fun _ => Except.ok false) (fun _ => Except.ok 7)
          [Event.queryExists "gs://scale1/a/3.txt",
           Event.querySize "gs://scale1/a/3.txt"]
          init_state).cache_stats
        "gs://scale1/a/3.txt" (fun _ => Except.ok false)
      = (Except.ok false,
         { (@run_events Unit Unit false "scale1"
              (fun _ => Except.ok false) (fun _ => Except.ok 7)
              [Event.queryExists "gs://scale1/a/3.txt",
               Event.querySize "gs://scale1/a/3.txt"]
              init_state).cache_stats with
            cache_misses :=
              (@run_events Unit Unit false "scale1"
                (fun _ => Except.ok false) (fun _ => Except.ok 7)
                [Event.queryExists "gs://scale1/a/3.txt",
                 Event.querySize "gs://scale1/a/3.txt"]
                init_state).cache_stats.cache_misses + 1 }) := by
  have h := @claim_C7_lookups_never_mutate_snapshot Unit Unit "scale1"
    (fun _ => Except.ok false) (fun _ => Except.ok 7)
    [Event.queryExists "gs://scale1/a/3.txt",
     Event.querySize "gs://scale1/a/3.txt"]
    (by decide)
    init_state "gs://scale1/a/3.txt"
  exact ⟨h.1, h.2.1 rfl⟩

/-- Claim C8 as stated is false on the code: the inventory wall-clock
time is *assigned*, not accumulated (`_cache_stats['inventory_time'] =
elapsed` at line 101).  After two successful runs taking 2 and then 3
time units, the reported inventory time is 3, not the cumulative
2 + 3 = 5. -/
theorem claim_C8_counterexample :
    (bulk_inventory_gcs (Except.ok []) "scale1" 3
        (bulk_inventory_gcs (Except.ok []) "scale1" 2 stats0).2).2.inventory_time
      = 3 ∧
    ¬ ((bulk_inventory_gcs (Except.ok []) "scale1" 3
        (bulk_inventory_gcs (Except.ok []) "scale1" 2 stats0).2).2.inventory_time
      = 2 + 3) := by
  exact ⟨rfl, by decide⟩

/-- Claim C8 amended: the hit, miss, and inventory-run-count counters
never decrease across any sequence of triggers and queries, but both
the total-files-cached figure *and* the inventory wall-clock time
reflect solely the most recent successful run (each is assigned, not
accumulated), while a successful run leaves the hit and miss counters
untouched. -/
theorem claim_C8_stats_discipline {εb εn : Type} (disabled : Bool)
    (bucket : String) (fbE : String → Except εb Bool)
    (fbS : String → Except εn Nat) (events : List Event) (s : GlobalState) :
    s.cache_stats.cache_hits
        ≤ (run_events disabled bucket fbE fbS events s).cache_stats.cache_hits ∧
    s.cache_stats.cache_misses
        ≤ (run_events disabled bucket fbE fbS events s).cache_stats.cache_misses ∧
    s.cache_stats.inventory_calls
        ≤ (run_events disabled bucket fbE fbS events s).cache_stats.inventory_calls ∧
    (∀ (blobs : List Blob) (elapsed : Nat) (st : Stats),
      (bulk_inventory_gcs (Except.ok blobs) bucket elapsed st).2.inventory_time
          = elapsed ∧
      (bulk_inventory_gcs (Except.ok blobs) bucket elapsed st).2.files_cached
          = blobs.length ∧
      (bulk_inventory_gcs (Except.ok blobs) bucket elapsed st).2.inventory_calls
          = st.inventory_calls + 1 ∧
      (bulk_inventory_gcs (Except.ok blobs) bucket elapsed st).2.cache_hits
          = st.cache_hits ∧
      (bulk_inventory_gcs (Except.ok blobs) bucket elapsed st).2.cache_misses
          = st.cache_misses) := by
  obtain ⟨h1, h2, h3⟩ :=
    run_events_stats_mono disabled bucket fbE fbS events s
  exact ⟨h1, h2, h3, fun blobs elapsed st => ⟨rfl, rfl, rfl, rfl, rfl⟩⟩

/-- Witness for the amended C8 at a concrete run: a trigger followed by
a hit and a miss never decreases the counters, and a second successful
run overwrites the timing figure with its own duration. -/
theorem claim_C8_stats_discipline_witness :
    stats0.cache_hits
      ≤ (@run_events Unit Unit false "scale1"
          (fun _ => Except.ok false) (fun _ => Except.ok 7)
          [Event.runTrigger (Except.ok [⟨"qinling/a/1.txt", 10, none⟩]) 2,
           Event.queryExists "gs://scale1/qinling/a/1.txt",
           Event.queryExists "gs://scale1/qinling/a/9.txt"]
          init_state).cache_stats.cache_hits ∧
    (bulk_inventory_gcs (Except.ok []) "scale1" 9 stats0).2.inventory_time
      = 9 :=
  ⟨(@claim_C8_stats_discipline Unit Unit false "scale1"
      (fun _ => Except.ok false) (fun _ => Except.ok 7)
      [Event.runTrigger (Except.ok [⟨"qinling/a/1.txt", 10, none⟩]) 2,
       Event.queryExists "gs://scale1/qinling/a/1.txt",
       Event.queryExists "gs://scale1/qinling/a/9.txt"]
      init_state).1,
   ((@claim_C8_stats_discipline Unit Unit false "scale1"
      (fun _ => Except.ok false) (fun _ => Except.ok 7) [] init_state).2.2.2
      [] 9 stats0).1⟩

/-- Claim C9: when the disable environment flag is set to `"1"` the
module stops before applying any patch, so the cache layer acts as a
pure pass-through — every `exists`/`size` query is forwarded
unconditionally to the fallback with the statistics untouched, the
trigger does nothing, and across any interaction sequence the state
(in particular the listing-call count) is completely unchanged. -/
theorem claim_C9_disabled_passthrough {εb εn : Type} (bucket : String)
    (fbE : String → Except εb Bool) (fbS : String → Except εn Nat)
    (events : List Event) (s : GlobalState) (c : Cache) (st : Stats)
    (p : String) (listing : Except ListingError (List Blob))
    (elapsed : Nat) :
    PATCH_DISABLED (some "1") = true ∧
    effective_exists true c st p fbE = (fbE p, st) ∧
    effective_size true c st p fbS = (fbS p, st) ∧
    effective_trigger true listing bucket elapsed s = s ∧
    run_events true bucket fbE fbS events s = s ∧
    (run_events true bucket fbE fbS events s).listing_calls
      = s.listing_calls := by
  have hid : ∀ (s' : GlobalState) (e : Event),
      apply_event true bucket fbE fbS s' e = s' := by
    intro s' e
    cases e <;> rfl
  have hrun : run_events true bucket fbE fbS events s = s := by
    induction events generalizing s with
    | nil => rfl
    | cons e es ih =>
        have hstep : run_events true bucket fbE fbS (e :: es) s
            = run_events true bucket fbE fbS es
                (apply_event true bucket fbE fbS s e) := rfl
        rw [hstep, hid s e, ih]
  exact ⟨rfl, rfl, rfl, rfl, hrun, by rw [hrun]⟩

/-- Witness for C9: with the flag set, a concrete trigger-then-query
sequence leaves the pristine state untouched and a concrete query
returns exactly the fallback's answer. -/
theorem claim_C9_witness :
    @run_events Unit Unit true "scale1"
        (fun _ => Except.ok false) (fun _ => Except.ok 7)
        [Event.runTrigger (Except.ok [⟨"qinling/a/1.txt", 10, none⟩]) 2,
         Event.queryExists "gs://scale1/qinling/a/1.txt"]
        init_state = init_state ∧
    @effective_exists Unit true emptyCache stats0 "gs://scale1/a/1.txt"
        (fun _ => Except.ok true) = (Except.ok true, stats0) := by
  have h := @claim_C9_disabled_passthrough Unit Unit "scale1"
    (fun _ => Except.ok false) (fun _ => Except.ok 7)
    [Event.runTrigger (Except.ok [⟨"qinling/a/1.txt", 10, none⟩]) 2,
     Event.queryExists "gs://scale1/qinling/a/1.txt"]
    init_state emptyCache stats0 "gs://scale1/a/1.txt"
    (Except.ok []) 0
  have h2 := @claim_C9_disabled_passthrough Unit Unit "scale1"
    (fun _ => Except.ok true) (fun _ => Except.ok 7) [] init_state
    emptyCache stats0 "gs://scale1/a/1.txt" (Except.ok []) 0
  exact ⟨h.2.2.2.2.1, h2.2.1⟩

/-- Claim C10 as stated is false on the code: the Empty→Populated
transition is guarded only by the unprotected boolean
`_inventory_done`, with no mutex or single-flight coordination, so two
concurrent callers that both evaluate `if not _inventory_done:` before
either has set the flag each perform a listing call.  The interleaving
check₀, check₁, inventory₀, inventory₁ yields two listing calls, not
one. -/
theorem claim_C10_counterexample :
    (run_sched [false, true, false, true] conc_init).listing_calls = 2 ∧
    ¬ ((run_sched [false, true, false, true] conc_init).listing_calls = 1) := by
  exact ⟨rfl, by decide⟩

/-- Claim C10 amended: nothing in the code serializes concurrent
triggers, so duplicate concurrent listings are possible; only when the
callers do not interleave — each runs its check and, if needed, its
inventory to completion before the next starts — does exactly one
listing call occur, with both callers finishing and the inventory
marked done.  (Both serialization orders are covered.) -/
theorem claim_C10_serialized_triggers_single_listing :
    (run_sched [false, false, true, true] conc_init).listing_calls = 1 ∧
    (run_sched [false, false, true, true] conc_init).inventory_done = true ∧
    (run_sched [false, false, true, true] conc_init).pc0 = ThreadPC.finished ∧
    (run_sched [false, false, true, true] conc_init).pc1 = ThreadPC.finished ∧
    (run_sched [true, true, false, false] conc_init).listing_calls = 1 ∧
    (run_sched [true, true, false, false] conc_init).inventory_done = true ∧
    (run_sched [true, true, false, false] conc_init).pc0 = ThreadPC.finished ∧
    (run_sched [true, true, false, false] conc_init).pc1 = ThreadPC.finished := by
  decide
